import Mathlib

/-!
# Session supervision of the Beast example server

A shallow embedding of `src/app/src/http_session.cpp` and
`src/app/src/websocket_session.cpp`: the per-connection handlers are pure
functions on an explicit session state.  Every asynchronous operation a
handler starts is appended to the `trace` of the session, in program order,
and the operations still outstanding are counted in the session.

Time is the tick count of `std::chrono::steady_clock` (nanoseconds), taken as
a mathematical integer; a handler reads the clock once.
-/

set_option linter.unusedVariables false

namespace BeastExample

/-! ## Shared vocabulary -/

/-- A `steady_clock::time_point`, as a tick count. -/
abbrev time_point := Int

/-- A `steady_clock::duration`, as a tick count. -/
abbrev duration := Int

/-- The sentinel `(std::chrono::steady_clock::time_point::min)()`. -/
def time_point_min : time_point := -9223372036854775808

/-- The value `(std::chrono::steady_clock::time_point::max)()`. -/
def time_point_max : time_point := 9223372036854775807

/-- The duration `std::chrono::seconds(n)` in clock ticks. -/
def seconds (n : Int) : duration := n * 1000000000

/-- The values of `boost::system::error_code` the handlers tell apart; every
other error is `other n`. -/
inductive error_code where
  | success
  | operation_aborted
  | end_of_stream
  | closed
  | other (n : Nat)
  deriving DecidableEq, Repr

/-- Conversion of an `error_code` to `bool`: true when it is an error. -/
def error_code.failed (ec : error_code) : Bool :=
  decide (ec ≠ error_code.success)

/-- A byte of a buffer. -/
abbrev byte := Nat

/-- A queued response: the type-erased `work` item of the response queue,
named by the number of the response it sends. -/
abbrev work := Nat

/-- The operations a handler starts on the connection, the timer and the log. -/
inductive Effect where
  | fail (ec : error_code) (what : String)
  | shutdown_both
  | shutdown_send
  | close
  | timer_wait (expiry : time_point)
  | http_read
  | http_write (w : work)
  | ws_read
  | ws_ping
  | ws_write (payload : List byte) (text : Bool)
  | log_info (msg : String) (arg : List byte)
  deriving DecidableEq, Repr

/-- A `tcp::socket` value: the native handle it owns, or `none` when it owns
no open socket (closed, or moved from). -/
abbrev tcp_socket := Option Nat

/-- A parsed HTTP request, as far as the session looks at it. -/
structure request where
  is_upgrade : Bool
  target : List byte
  deriving DecidableEq, Repr

/-! ## HTTP session -/

/-- The state of an `http_session`. -/
structure http_session where
  /-- The member `socket_`. -/
  socket : tcp_socket
  /-- The expiry of `timer_`. -/
  expiry : time_point
  /-- The member `buffer_`: bytes read from the socket and not yet consumed. -/
  buffer : List byte
  /-- The member `req_`. -/
  req : request
  /-- The vector `queue_.items_`. -/
  items : List work
  /-- Number of outstanding `http::async_read` operations. -/
  reads : Nat
  /-- Number of outstanding `http::async_write` operations. -/
  writes : Nat
  /-- Operations started so far, oldest first. -/
  trace : List Effect
  deriving DecidableEq, Repr

/-- Append one started operation to the trace. -/
def http_session.emit (s : http_session) (e : Effect) : http_session :=
  { s with trace := s.trace ++ [e] }

/-- The call `fail(ec, what)`: report the error. -/
def http_session.fail (s : http_session) (ec : error_code) (what : String) :
    http_session :=
  s.emit (Effect.fail ec what)

/-- The constructor `http_session::http_session`: the timer is created with
expiry `time_point::max`, the queue is empty. -/
def http_session.new (socket : tcp_socket) : http_session :=
  { socket := socket, expiry := time_point_max, buffer := [],
    req := ⟨false, []⟩, items := [], reads := 0, writes := 0, trace := [] }

/-- The call `timer_.expires_after(d)` at clock reading `now`. -/
def http_session.expires_after (s : http_session) (now : time_point)
    (d : duration) : http_session :=
  { s with expiry := now + d }

/-- Embedding of `http_session::do_read`. -/
def http_session.do_read (now : time_point) (s : http_session) : http_session :=
  let s := s.expires_after now (seconds 15)
  let s := { s with req := ⟨false, []⟩ }
  { s with reads := s.reads + 1, trace := s.trace ++ [Effect.http_read] }

/-- Embedding of `http_session::on_timer`. -/
def http_session.on_timer (ec : error_code) (now : time_point)
    (s : http_session) : http_session :=
  if ec.failed ∧ ec ≠ error_code.operation_aborted then
    s.fail ec "timer"
  else if s.expiry = time_point_min then
    s
  else if s.expiry ≤ now then
    let s := s.emit Effect.shutdown_both
    { s with socket := none, trace := s.trace ++ [Effect.close] }
  else
    s.emit (Effect.timer_wait s.expiry)

/-- Embedding of `http_session::run`, executed on the strand. -/
def http_session.run (now : time_point) (s : http_session) : http_session :=
  http_session.do_read now (http_session.on_timer error_code.success now s)

/-- Embedding of `http_session::do_close`. -/
def http_session.do_close (s : http_session) : http_session :=
  s.emit Effect.shutdown_send

/-- Modelled from the spec: the call operator of a queued `work` item
(`http_session.hpp` is not under `src/`): invoking the entry starts the write
of its response on the session. -/
def http_session.invoke (w : work) (s : http_session) : http_session :=
  { s with writes := s.writes + 1, trace := s.trace ++ [Effect.http_write w] }

/-- Embedding of `http_session::queue::is_full`, with the constant `limit` of the missing
header as a parameter. -/
def http_session.queue.is_full (limit : Nat) (s : http_session) : Bool :=
  decide (s.items.length ≥ limit)

/-- Embedding of `http_session::queue::on_write`.  `none` is the failure of
`BOOST_ASSERT(!items_.empty())`. -/
def http_session.queue.on_write (limit : Nat) (s : http_session) :
    Option (Bool × http_session) :=
  match s.items with
  | [] => none
  | _ :: rest =>
    let was_full := http_session.queue.is_full limit s
    let s := { s with items := rest }
    let s := match s.items with
      | [] => s
      | front :: _ => http_session.invoke front s
    some (was_full, s)

/-- Modelled from the spec: `enqueue(op)` of the response queue, the call
operator of `http_session::queue` (`http_session.hpp` is not under `src/`):
appends the operation and starts it at once when the queue was empty. -/
def http_session.queue.send (w : work) (s : http_session) : http_session :=
  let was_empty := s.items.isEmpty
  let s := { s with items := s.items ++ [w] }
  if was_empty then http_session.invoke w s else s

/-! ## WebSocket session -/

/-- The state of a `websocket_session`. -/
structure websocket_session where
  /-- The socket under the stream, `ws_.next_layer()`. -/
  socket : tcp_socket
  /-- The status `ws_.is_open()` of the stream. -/
  is_open : Bool
  /-- The flag `ws_.got_text()` of the last message read. -/
  got_text : Bool
  /-- The write option `ws_.text()`. -/
  text : Bool
  /-- The expiry of `timer_`. -/
  expiry : time_point
  /-- The member `ping_state_`. -/
  ping_state : Nat
  /-- The member `buffer_`. -/
  buffer : List byte
  /-- Number of outstanding `async_read` operations. -/
  reads : Nat
  /-- Number of outstanding `async_write` operations. -/
  writes : Nat
  /-- Number of outstanding `async_ping` operations. -/
  pings : Nat
  /-- Number of outstanding `timer_.async_wait` operations. -/
  waits : Nat
  /-- Operations started so far, oldest first. -/
  trace : List Effect
  deriving DecidableEq, Repr

/-- Append one started operation to the trace. -/
def websocket_session.emit (s : websocket_session) (e : Effect) :
    websocket_session :=
  { s with trace := s.trace ++ [e] }

/-- The call `fail(ec, what)`: report the error. -/
def websocket_session.fail (s : websocket_session) (ec : error_code)
    (what : String) : websocket_session :=
  s.emit (Effect.fail ec what)

/-- The constructor `websocket_session::websocket_session`: the stream takes
the socket, the timer is created with expiry `time_point::max`; the members
outside the initialiser list (`buffer_`, `ping_state_`) start empty and 0. -/
def websocket_session.new (socket : tcp_socket) : websocket_session :=
  { socket := socket, is_open := false, got_text := false, text := false,
    expiry := time_point_max, ping_state := 0, buffer := [],
    reads := 0, writes := 0, pings := 0, waits := 0, trace := [] }

/-- The call `timer_.expires_after(d)` at clock reading `now`. -/
def websocket_session.expires_after (s : websocket_session) (now : time_point)
    (d : duration) : websocket_session :=
  { s with expiry := now + d }

/-- The call `timer_.async_wait(on_timer)`. -/
def websocket_session.async_wait (s : websocket_session) : websocket_session :=
  { s with waits := s.waits + 1,
           trace := s.trace ++ [Effect.timer_wait s.expiry] }

/-- Embedding of `websocket_session::do_read`. -/
def websocket_session.do_read (s : websocket_session) : websocket_session :=
  { s with reads := s.reads + 1, trace := s.trace ++ [Effect.ws_read] }

/-- Embedding of `websocket_session::on_accept`. -/
def websocket_session.on_accept (ec : error_code) (s : websocket_session) :
    websocket_session :=
  if ec = error_code.operation_aborted then s
  else if ec.failed then s.fail ec "accept"
  else (s.emit (Effect.log_info "ws-client connected" [])).do_read

/-- Embedding of `websocket_session::on_timer`. -/
def websocket_session.on_timer (ec : error_code) (now : time_point)
    (s : websocket_session) : websocket_session :=
  if ec.failed ∧ ec ≠ error_code.operation_aborted then
    s.fail ec "timer"
  else if s.expiry ≤ now then
    if s.is_open ∧ s.ping_state = 0 then
      let s := { s with ping_state := 1 }
      let s := s.expires_after now (seconds 15)
      let s := { s with pings := s.pings + 1,
                        trace := s.trace ++ [Effect.ws_ping] }
      s.async_wait
    else
      let s := s.emit Effect.shutdown_both
      { s with socket := none, trace := s.trace ++ [Effect.close] }
  else
    s.async_wait

/-- Embedding of `websocket_session::activity`. -/
def websocket_session.activity (now : time_point) (s : websocket_session) :
    websocket_session :=
  let s := { s with ping_state := 0 }
  s.expires_after now (seconds 15)

/-- Embedding of `websocket_session::on_ping`.  `none` is the failure of
`BOOST_ASSERT(ping_state_ == 0)`. -/
def websocket_session.on_ping (ec : error_code) (s : websocket_session) :
    Option websocket_session :=
  if ec = error_code.operation_aborted then some s
  else if ec.failed then some (s.fail ec "ping")
  else if s.ping_state = 1 then some { s with ping_state := 2 }
  else if s.ping_state = 0 then some s
  else none

/-- Embedding of `websocket_session::on_control_callback`; the frame kind and
payload are ignored. -/
def websocket_session.on_control_callback (kind : Nat) (payload : List byte)
    (now : time_point) (s : websocket_session) : websocket_session :=
  s.activity now

/-- The message-content codec used for logging: `Person::ParseFromString` and
`MessageToJsonString`, each with its success flag and its output. -/
structure codec (Person : Type) where
  ParseFromString : List byte → Bool × Person
  MessageToJsonString : Person → Bool × List byte

/-- Embedding of `websocket_session::on_read`. -/
def websocket_session.on_read {Person : Type} (c : codec Person)
    (ec : error_code) (bytes_transferred : Nat) (now : time_point)
    (s : websocket_session) : websocket_session :=
  if ec = error_code.operation_aborted then s
  else if ec = error_code.closed then s
  else
    let s := if ec.failed then s.fail ec "read" else s
    let s := s.activity now
    let s := { s with text := s.got_text }
    let r : websocket_session × List byte :=
      if s.got_text then
        let buf_text := s.buffer
        let s := s.emit (Effect.log_info "ws-server < " buf_text)
        let message := (c.ParseFromString buf_text).2
        let json_message := (c.MessageToJsonString message).2
        (s.emit (Effect.log_info "ws-server < " json_message), buf_text)
      else (s, [])
    let s := r.1
    let s := { s with writes := s.writes + 1,
                      trace := s.trace ++ [Effect.ws_write s.buffer s.text] }
    s.emit (Effect.log_info "ws-server > " r.2)

/-- Embedding of `websocket_session::on_write`. -/
def websocket_session.on_write (ec : error_code) (bytes_transferred : Nat)
    (s : websocket_session) : websocket_session :=
  if ec = error_code.operation_aborted then s
  else if ec.failed then s.fail ec "write"
  else ({ s with buffer := [] }).do_read

/-! ## HTTP session: request pipeline -/

/-- The hand-off made by the upgrade branch of `http_session::on_read`: the
session built by `std::make_shared<websocket_session>(std::move(socket_))` and
the request given to its `do_accept`. -/
structure upgrade where
  session : websocket_session
  req : request
  deriving DecidableEq, Repr

/-- Modelled from the spec: the dispatcher `handle_request`
(`handle_request.cpp` is not under `src/`): the send operations it produces
for the request are enqueued on the response queue, in order. -/
def handle_request (resps : List work) (s : http_session) : http_session :=
  resps.foldl (fun s w => http_session.queue.send w s) s

/-- Embedding of `http_session::on_read`; `resps` are the send operations the
dispatcher produces for `req_`. -/
def http_session.on_read (limit : Nat) (ec : error_code) (now : time_point)
    (resps : List work) (s : http_session) : http_session × Option upgrade :=
  if ec = error_code.operation_aborted then (s, none)
  else if ec = error_code.end_of_stream then (s.do_close, none)
  else if ec.failed then (s.fail ec "read", none)
  else if s.req.is_upgrade then
    let s := { s with expiry := time_point_min }
    ({ s with socket := none, req := ⟨false, []⟩ },
      some ⟨websocket_session.new s.socket, s.req⟩)
  else
    let s := handle_request resps s
    if !(http_session.queue.is_full limit s) then
      (http_session.do_read now s, none)
    else (s, none)

/-- Embedding of `http_session::on_write`.  `none` is the failure of the
assertion in `queue::on_write`. -/
def http_session.on_write (limit : Nat) (ec : error_code) (close : Bool)
    (now : time_point) (s : http_session) : Option http_session :=
  if ec = error_code.operation_aborted then some s
  else if ec.failed then some (s.fail ec "write")
  else if close then some s.do_close
  else
    match http_session.queue.on_write limit s with
    | none => none
    | some (true, s) => some (http_session.do_read now s)
    | some (false, s) => some s

/-! ## Completions delivered to a session -/

/-- The completions of an HTTP session on its success path: a request read
that completed with `req` and for which the dispatcher produces the one send
operation `resp`, and a write that completed without asking to close. -/
inductive http_event where
  | read_done (req : request) (resp : work) (now : time_point)
  | write_done (now : time_point)
  deriving DecidableEq, Repr

/-- Deliver one completion to the HTTP session: the operation must be
outstanding; the library stores the parsed request in `req_` before it calls
`on_read`.  `none` when no such operation is outstanding, when the request is
an upgrade (the session ends), or when an assertion fails. -/
def http_session.deliver (limit : Nat) (e : http_event) (s : http_session) :
    Option http_session :=
  match e with
  | http_event.read_done req resp now =>
    if s.reads = 0 ∨ req.is_upgrade then none
    else
      some (http_session.on_read limit error_code.success now [resp]
        { s with reads := s.reads - 1, req := req }).1
  | http_event.write_done now =>
    if s.writes = 0 then none
    else
      http_session.on_write limit error_code.success false now
        { s with writes := s.writes - 1 }

/-- The states an HTTP session reaches from `run()` by successful read
completions and successful non-closing write completions. -/
inductive http_reachable (limit : Nat) : http_session → Prop where
  | run (socket : tcp_socket) (now : time_point) :
      http_reachable limit (http_session.run now (http_session.new socket))
  | step (e : http_event) (s s' : http_session) :
      http_reachable limit s → http_session.deliver limit e s = some s' →
      http_reachable limit s'

/-- The completions and callbacks of a WebSocket session. -/
inductive ws_event where
  | timer (ec : error_code) (now : time_point)
  | read_done (ec : error_code) (payload : List byte) (text : Bool)
      (now : time_point)
  | control (kind : Nat) (payload : List byte) (now : time_point)
  | ping_done (ec : error_code)
  | write_done (ec : error_code)
  deriving DecidableEq, Repr

/-- Deliver one completion or callback to the WebSocket session, with the
message-content codec `c`.  The operation must be outstanding (the control
callback runs inside an outstanding read); a completed read has put the
payload in `buffer_` and set `got_text`.  `none` when the event cannot be
delivered or an assertion fails. -/
def websocket_session.deliver {Person : Type} (c : codec Person) (e : ws_event)
    (s : websocket_session) : Option websocket_session :=
  match e with
  | ws_event.timer ec now =>
    if s.waits = 0 then none
    else some (websocket_session.on_timer ec now { s with waits := s.waits - 1 })
  | ws_event.read_done ec payload text now =>
    if s.reads = 0 then none
    else
      some (websocket_session.on_read c ec payload.length now
        { s with reads := s.reads - 1, buffer := s.buffer ++ payload,
                 got_text := text })
  | ws_event.control kind payload now =>
    if s.reads = 0 then none
    else some (websocket_session.on_control_callback kind payload now s)
  | ws_event.ping_done ec =>
    if s.pings = 0 then none
    else websocket_session.on_ping ec { s with pings := s.pings - 1 }
  | ws_event.write_done ec =>
    if s.writes = 0 then none
    else
      some (websocket_session.on_write ec s.buffer.length
        { s with writes := s.writes - 1 })

/-- Deliver a sequence of events, oldest first. -/
def websocket_session.run_events {Person : Type} (c : codec Person) :
    List ws_event → websocket_session → Option websocket_session
  | [], s => some s
  | e :: es, s =>
    match websocket_session.deliver c e s with
    | none => none
    | some s' => websocket_session.run_events c es s'

/-- Modelled from the spec: `websocket_session::do_accept`
(`websocket_session.hpp` is not under `src/`): arms the deadline, 15 seconds
from now, with its recurring check, and starts the upgrade handshake. -/
def websocket_session.do_accept (req : request) (now : time_point)
    (s : websocket_session) : websocket_session :=
  (s.expires_after now (seconds 15)).async_wait

/-- A session whose handshake succeeded at `now`: the stream is open and
`on_accept` has started the first read. -/
def websocket_session.established (socket : tcp_socket) (req : request)
    (now : time_point) : websocket_session :=
  websocket_session.on_accept error_code.success
    { websocket_session.do_accept req now (websocket_session.new socket) with
      is_open := true }

/-- The writes started in a trace: payload and text flag, oldest first. -/
def ws_writes : List Effect → List (List byte × Bool)
  | [] => []
  | Effect.ws_write payload text :: es => (payload, text) :: ws_writes es
  | _ :: es => ws_writes es

/-- A codec that fails to parse and fails to convert. -/
def codec.failing : codec Unit :=
  { ParseFromString := fun _ => (false, ()),
    MessageToJsonString := fun _ => (false, []) }

/-- Deliver a sequence of completions to the HTTP session, oldest first. -/
def http_session.run_events (limit : Nat) :
    List http_event → http_session → Option http_session
  | [], s => some s
  | e :: es, s =>
    match http_session.deliver limit e s with
    | none => none
    | some s' => http_session.run_events limit es s'

/-! ## Concrete sessions -/

/-- An HTTP session on socket 5 started at time 0. -/
def http_started : http_session :=
  http_session.run 0 (http_session.new (some 5))

/-- The started session after a first request completed at 1 s, limit 2. -/
def http_one_queued : http_session :=
  (http_session.on_read 2 error_code.success (seconds 1) [1]
    { http_started with reads := http_started.reads - 1, req := ⟨false, []⟩ }).1

/-- The session after a second request completed at 2 s, limit 2. -/
def http_two_queued : http_session :=
  (http_session.on_read 2 error_code.success (seconds 2) [2]
    { http_one_queued with reads := http_one_queued.reads - 1,
                           req := ⟨false, []⟩ }).1

/-- The started session when the read of an upgrade request has completed and
two further bytes, 129 and 0, are already in `buffer_`. -/
def http_upgrade_pending : http_session :=
  { http_started with reads := 0, req := ⟨true, []⟩, buffer := [129, 0] }

/-- The inductive invariant of the HTTP pipeline: at most one read is
outstanding, it is outstanding exactly while the queue is below `limit`, the
queue holds at most `limit` entries, and a write is outstanding exactly while
the queue is non-empty. -/
def http_inv (limit : Nat) (s : http_session) : Prop :=
  s.reads ≤ 1 ∧ s.items.length ≤ limit
    ∧ (s.reads = 1 ↔ s.items.length < limit)
    ∧ s.writes = (if s.items.length = 0 then 0 else 1)

/-- A WebSocket session on socket 5 whose handshake succeeded at time 0. -/
def ws_idle : websocket_session :=
  websocket_session.established (some 5) ⟨true, []⟩ 0

/-- A run in which the first probe is still outstanding when a second one is
sent: the timer fires at 15 s, a control frame arrives at 20 s and moves the
deadline (the pending wait completes as aborted), the timer fires at 35 s,
and the first probe completes. -/
def ws_two_probe_events : List ws_event :=
  [ws_event.timer error_code.success (seconds 15),
   ws_event.control 2 [] (seconds 20),
   ws_event.timer error_code.operation_aborted (seconds 20),
   ws_event.timer error_code.success (seconds 35),
   ws_event.ping_done error_code.success]

/-- A run that leaves an established session open, in probe state 0, with
deadline 20 s + 15 s, and with the probe sent at 15 s still outstanding: the
timer fires at 15 s, a control frame arrives at 20 s and moves the deadline,
and the pending wait completes as aborted. -/
def ws_probe_pending_events : List ws_event :=
  [ws_event.timer error_code.success (seconds 15),
   ws_event.control 2 [] (seconds 20),
   ws_event.timer error_code.operation_aborted (seconds 20)]

/-- Whether an event is inbound activity: a read completion or a
control-frame callback. -/
def ws_event.inbound : ws_event → Bool
  | ws_event.read_done _ _ _ _ => true
  | ws_event.control _ _ _ => true
  | _ => false

/-- A run without inbound activity, for the deadline 35 s: the timer fires at
35 s, the two outstanding probes complete, and the timer fires at 50 s. -/
def ws_silent_events : List ws_event :=
  [ws_event.timer error_code.success (seconds 35),
   ws_event.ping_done error_code.success,
   ws_event.ping_done error_code.success,
   ws_event.timer error_code.success (seconds 50)]

/-- The timer firing `s'` of state `s` did not close the connection: the
socket is kept, and the handler only scheduled the next wait, after sending a
probe or not. -/
def ws_kept_open (s s' : websocket_session) : Prop :=
  s'.socket = s.socket
    ∧ (s'.trace = s.trace ++ [Effect.timer_wait s'.expiry]
        ∨ s'.trace = s.trace ++ [Effect.ws_ping, Effect.timer_wait s'.expiry])

/-! ## Response queue -/

/-- C1: on a non-empty queue `w :: rest` of `n` entries, `queue::on_write`
removes exactly the front entry and keeps the other `n - 1` in order; when
`n - 1 > 0` it starts the new front entry and nothing else, when `n - 1 = 0`
it starts nothing; it returns the value `is_full()` had before the removal,
which is true exactly when `n ≥ limit`; the rest of the session is untouched. -/
theorem queue_on_write_spec (limit : Nat) (s : http_session) (w : work)
    (rest : List work) (h : s.items = w :: rest) :
    ∃ s', http_session.queue.on_write limit s
        = some (http_session.queue.is_full limit s, s')
      ∧ (http_session.queue.is_full limit s = true ↔ s.items.length ≥ limit)
      ∧ s'.items = rest
      ∧ s'.items.length = s.items.length - 1
      ∧ (0 < s.items.length - 1 →
          ∃ front, s'.items.head? = some front
            ∧ s'.trace = s.trace ++ [Effect.http_write front]
            ∧ s'.writes = s.writes + 1)
      ∧ (s.items.length - 1 = 0 → s'.trace = s.trace ∧ s'.writes = s.writes)
      ∧ s'.socket = s.socket ∧ s'.expiry = s.expiry ∧ s'.buffer = s.buffer
      ∧ s'.req = s.req ∧ s'.reads = s.reads := by
  cases rest with
  | nil =>
    refine ⟨{ s with items := [] }, ?_, ?_, rfl, ?_, ?_, ?_, rfl, rfl, rfl, rfl, rfl⟩
    · simp [http_session.queue.on_write, h]
    · simp [http_session.queue.is_full]
    · simp [h]
    · simp [h]
    · intro _; exact ⟨rfl, rfl⟩
  | cons f r =>
    refine ⟨http_session.invoke f { s with items := f :: r }, ?_, ?_, rfl, ?_, ?_,
      ?_, rfl, rfl, rfl, rfl, rfl⟩
    · simp [http_session.queue.on_write, h]
    · simp [http_session.queue.is_full]
    · simp [h, http_session.invoke]
    · intro _; exact ⟨f, rfl, rfl, rfl⟩
    · intro h0; simp [h] at h0

/-- Witness of the queue contract: three queued responses with limit 2; the
call reports a full queue, leaves the last two and starts response 11. -/
theorem queue_on_write_spec_witness :
    ∃ s', http_session.queue.on_write 2
        { http_session.new (some 5) with items := [10, 11, 12] }
        = some (http_session.queue.is_full 2
            { http_session.new (some 5) with items := [10, 11, 12] }, s')
      ∧ s'.items = [11, 12]
      ∧ ∃ front, s'.items.head? = some front
          ∧ s'.trace = [] ++ [Effect.http_write front] := by
  obtain ⟨s', h1, _, h3, _, h5, _⟩ :=
    queue_on_write_spec 2 { http_session.new (some 5) with items := [10, 11, 12] }
      10 [11, 12] rfl
  obtain ⟨front, h6, h7, _⟩ := h5 (by decide)
  exact ⟨s', h1, h3, front, h6, h7⟩

/-! ## Deadline handlers -/

/-- C5: `http_session::on_timer` called with status success or aborted does
nothing when the expiry is the detached sentinel `time_point::min`; otherwise,
when the expiry is at or before `now`, it shuts down both directions, closes
the socket and schedules no wait; otherwise it leaves the socket alone and
schedules exactly one wait, for the current expiry. -/
theorem http_on_timer_spec (ec : error_code) (now : time_point)
    (s : http_session)
    (hec : ec = error_code.success ∨ ec = error_code.operation_aborted) :
    (s.expiry = time_point_min → http_session.on_timer ec now s = s)
    ∧ (s.expiry ≠ time_point_min → s.expiry ≤ now →
        http_session.on_timer ec now s =
          { s with socket := none,
                   trace := s.trace ++ [Effect.shutdown_both, Effect.close] })
    ∧ (s.expiry ≠ time_point_min → now < s.expiry →
        http_session.on_timer ec now s =
          { s with trace := s.trace ++ [Effect.timer_wait s.expiry] }) := by
  have hguard : ¬ (ec.failed = true ∧ ec ≠ error_code.operation_aborted) := by
    rcases hec with h | h <;> subst h <;> simp [error_code.failed]
  refine ⟨?_, ?_, ?_⟩
  · intro h
    simp [http_session.on_timer, hguard, h]
  · intro h1 h2
    simp [http_session.on_timer, hguard, h1, h2, http_session.emit]
  · intro h1 h2
    have h3 : ¬ s.expiry ≤ now := not_le.mpr h2
    simp [http_session.on_timer, hguard, h1, h3, http_session.emit]

/-- Witness of the HTTP timer contract: a session just started at time 0, whose
timer fires, aborted, at time 5 seconds: one wait for the expiry at 15 s. -/
theorem http_on_timer_spec_witness :
    http_session.on_timer error_code.operation_aborted (seconds 5)
        (http_session.run 0 (http_session.new (some 5)))
      = { http_session.run 0 (http_session.new (some 5)) with
          trace := (http_session.run 0 (http_session.new (some 5))).trace
            ++ [Effect.timer_wait (seconds 15)] } :=
  (http_on_timer_spec error_code.operation_aborted (seconds 5)
    (http_session.run 0 (http_session.new (some 5))) (Or.inr rfl)).2.2
    (by decide) (by decide)

/-- C3: `websocket_session::on_timer` called with status success or aborted.
Expiry later than `now`: probe state and connection unchanged, exactly one
timer wait scheduled.  Expiry reached, stream open, probe state 0: the probe
state becomes 1, the expiry `now + 15 s`, exactly one probe is sent and exactly
one timer wait is scheduled.  Expiry reached, stream not open or probe state
not 0: both directions are shut down and the socket closed, no probe is sent
and no timer wait is scheduled. -/
theorem ws_on_timer_spec (ec : error_code) (now : time_point)
    (s : websocket_session)
    (hec : ec = error_code.success ∨ ec = error_code.operation_aborted) :
    (now < s.expiry →
        websocket_session.on_timer ec now s =
          { s with waits := s.waits + 1,
                   trace := s.trace ++ [Effect.timer_wait s.expiry] })
    ∧ (s.expiry ≤ now → s.is_open = true → s.ping_state = 0 →
        websocket_session.on_timer ec now s =
          { s with ping_state := 1, expiry := now + seconds 15,
                   pings := s.pings + 1, waits := s.waits + 1,
                   trace := s.trace ++ [Effect.ws_ping,
                     Effect.timer_wait (now + seconds 15)] })
    ∧ (s.expiry ≤ now → (s.is_open = false ∨ s.ping_state ≠ 0) →
        websocket_session.on_timer ec now s =
          { s with socket := none,
                   trace := s.trace ++ [Effect.shutdown_both, Effect.close] }) := by
  have hguard : ¬ (ec.failed = true ∧ ec ≠ error_code.operation_aborted) := by
    rcases hec with h | h <;> subst h <;> simp [error_code.failed]
  refine ⟨?_, ?_, ?_⟩
  · intro h
    have h3 : ¬ s.expiry ≤ now := not_le.mpr h
    simp [websocket_session.on_timer, hguard, h3, websocket_session.async_wait]
  · intro h1 h2 h3
    simp [websocket_session.on_timer, hguard, h1, h2, h3,
      websocket_session.async_wait, websocket_session.expires_after]
  · intro h1 h2
    have h3 : ¬ (s.is_open = true ∧ s.ping_state = 0) := by
      rcases h2 with h | h
      · simp [h]
      · exact fun hh => h hh.2
    simp [websocket_session.on_timer, hguard, h1, h3, websocket_session.emit]

/-- Witness of the WebSocket timer contract: a session established at time 0 whose timer
fires at 15 s sends one probe and waits for 30 s. -/
theorem ws_on_timer_spec_witness :
    websocket_session.on_timer error_code.success (seconds 15)
        (websocket_session.established (some 5) ⟨true, []⟩ 0)
      = { websocket_session.established (some 5) ⟨true, []⟩ 0 with
          ping_state := 1, expiry := seconds 15 + seconds 15,
          pings := 1, waits := 2,
          trace := (websocket_session.established (some 5) ⟨true, []⟩ 0).trace
            ++ [Effect.ws_ping, Effect.timer_wait (seconds 15 + seconds 15)] } :=
  (ws_on_timer_spec error_code.success (seconds 15)
    (websocket_session.established (some 5) ⟨true, []⟩ 0) (Or.inl rfl)).2.1
    (by decide) (by decide) (by decide)

/-! ## Backpressure of the HTTP pipeline -/

/-- The timer handler touches neither the queue nor the operation counts. -/
theorem http_on_timer_queue (ec : error_code) (now : time_point)
    (s : http_session) :
    (http_session.on_timer ec now s).items = s.items
      ∧ (http_session.on_timer ec now s).reads = s.reads
      ∧ (http_session.on_timer ec now s).writes = s.writes := by
  unfold http_session.on_timer
  split_ifs <;> simp [http_session.fail, http_session.emit]

/-- The fields of the session after `do_read`. -/
theorem http_do_read_fields (now : time_point) (s : http_session) :
    (http_session.do_read now s).items = s.items
      ∧ (http_session.do_read now s).reads = s.reads + 1
      ∧ (http_session.do_read now s).writes = s.writes
      ∧ (http_session.do_read now s).expiry = now + seconds 15 := by
  simp [http_session.do_read, http_session.expires_after]

/-- The fields of the session after one `enqueue`. -/
theorem http_send_fields (w : work) (s : http_session) :
    (http_session.queue.send w s).items = s.items ++ [w]
      ∧ (http_session.queue.send w s).reads = s.reads
      ∧ (http_session.queue.send w s).writes
          = s.writes + (if s.items.length = 0 then 1 else 0)
      ∧ (http_session.queue.send w s).expiry = s.expiry := by
  cases h : s.items with
  | nil => simp [http_session.queue.send, h, http_session.invoke]
  | cons a l => simp [http_session.queue.send, h]

/-- The dispatcher leaves the deadline alone. -/
theorem handle_request_expiry (resps : List work) (s : http_session) :
    (handle_request resps s).expiry = s.expiry := by
  unfold handle_request
  induction resps generalizing s with
  | nil => rfl
  | cons w ws ih =>
    rw [List.foldl_cons, ih]
    exact (http_send_fields w s).2.2.2

/-- A successful read of an ordinary request: dispatch, then read again unless
the queue is full. -/
theorem http_on_read_ok (limit : Nat) (now : time_point) (resps : List work)
    (s : http_session) (hu : s.req.is_upgrade = false) :
    (http_session.on_read limit error_code.success now resps s).1
      = if http_session.queue.is_full limit (handle_request resps s) = true
        then handle_request resps s
        else http_session.do_read now (handle_request resps s) := by
  unfold http_session.on_read
  simp only [error_code.failed, hu]
  cases http_session.queue.is_full limit (handle_request resps s) <;> simp

/-- A successful non-closing write completion on a non-empty queue: pop, start
the next entry, and read again when the queue was full. -/
theorem http_on_write_ok (limit : Nat) (now : time_point) (s : http_session)
    (w : work) (rest : List work) (h : s.items = w :: rest) :
    http_session.on_write limit error_code.success false now s
      = some (
          if http_session.queue.is_full limit s = true then
            http_session.do_read now
              (match rest with
               | [] => { s with items := rest }
               | front :: _ => http_session.invoke front { s with items := rest })
          else
            (match rest with
             | [] => { s with items := rest }
             | front :: _ => http_session.invoke front { s with items := rest })) := by
  unfold http_session.on_write http_session.queue.on_write
  simp only [error_code.failed, h]
  cases hf : http_session.queue.is_full limit s <;> cases rest <;> simp

theorem http_inv_run (limit : Nat) (hl : 0 < limit) (socket : tcp_socket)
    (now : time_point) :
    http_inv limit (http_session.run now (http_session.new socket)) := by
  unfold http_inv http_session.run
  obtain ⟨h1, h2, h3, _⟩ := http_do_read_fields now
    (http_session.on_timer error_code.success now (http_session.new socket))
  obtain ⟨k1, k2, k3⟩ := http_on_timer_queue error_code.success now
    (http_session.new socket)
  rw [h1, h2, h3, k1, k2, k3]
  simp [http_session.new, hl]

theorem http_inv_read (limit : Nat) (s : http_session) (req : request)
    (resp : work) (now : time_point) (hr : s.reads ≠ 0)
    (hu : req.is_upgrade = false) (hi : http_inv limit s) :
    http_inv limit (http_session.on_read limit error_code.success now [resp]
      { s with reads := s.reads - 1, req := req }).1 := by
  obtain ⟨h1, h2, h3, h4⟩ := hi
  have hr1 : s.reads = 1 := by omega
  have hlt : s.items.length < limit := h3.mp hr1
  rw [http_on_read_ok limit now [resp] _ hu]
  obtain ⟨a1, a2, a3, _⟩ := http_send_fields resp
    { s with reads := s.reads - 1, req := req }
  dsimp only at a1 a2 a3
  have a3' : (http_session.queue.send resp
      { s with reads := s.reads - 1, req := req }).writes = 1 := by
    rw [a3, h4]; split_ifs <;> rfl
  have hq : handle_request [resp] { s with reads := s.reads - 1, req := req }
      = http_session.queue.send resp { s with reads := s.reads - 1, req := req } := rfl
  rw [hq]
  by_cases hf : limit ≤ s.items.length + 1
  · have : http_session.queue.is_full limit
        (http_session.queue.send resp { s with reads := s.reads - 1, req := req })
        = true := by
      simp [http_session.queue.is_full, a1, hf]
    rw [if_pos this]
    unfold http_inv
    rw [a1, a2, a3']
    simp only [List.length_append, List.length_singleton]
    exact ⟨by omega, by omega, ⟨fun h => by omega, fun h => by omega⟩, by simp⟩
  · have : ¬ http_session.queue.is_full limit
        (http_session.queue.send resp { s with reads := s.reads - 1, req := req })
        = true := by
      simp [http_session.queue.is_full, a1]; omega
    rw [if_neg this]
    obtain ⟨b1, b2, b3, _⟩ := http_do_read_fields now
      (http_session.queue.send resp { s with reads := s.reads - 1, req := req })
    unfold http_inv
    rw [b1, b2, b3, a1, a2, a3']
    simp only [List.length_append, List.length_singleton]
    exact ⟨by omega, by omega, ⟨fun h => by omega, fun h => by omega⟩, by simp⟩

theorem http_inv_write (limit : Nat) (s s' : http_session) (now : time_point)
    (hw : s.writes ≠ 0) (hi : http_inv limit s)
    (hs : http_session.on_write limit error_code.success false now
      { s with writes := s.writes - 1 } = some s') :
    http_inv limit s' := by
  obtain ⟨h1, h2, h3, h4⟩ := hi
  cases hit : s.items with
  | nil => simp [hit] at h4; exact absurd h4 hw
  | cons w rest =>
    have hw1 : s.writes = 1 := by simp [hit] at h4; exact h4
    have hlen : s.items.length = rest.length + 1 := by simp [hit]
    rw [http_on_write_ok limit now { s with writes := s.writes - 1 } w rest hit] at hs
    injection hs with hs
    subst hs
    by_cases hf : limit ≤ s.items.length
    · have : http_session.queue.is_full limit { s with writes := s.writes - 1 }
          = true := by simp [http_session.queue.is_full, hf]
      rw [if_pos this]
      have hr0 : s.reads = 0 := by
        by_contra hne
        have : s.reads = 1 := by omega
        have := h3.mp this
        omega
      unfold http_inv
      cases rest with
      | nil =>
        simp [http_session.do_read, http_session.expires_after, hw1, hr0]
        simp at hlen; omega
      | cons f r =>
        simp [http_session.do_read, http_session.expires_after, hw1, hr0,
          http_session.invoke]
        simp at hlen; omega
    · have : ¬ http_session.queue.is_full limit { s with writes := s.writes - 1 }
          = true := by simp [http_session.queue.is_full]; omega
      rw [if_neg this]
      have hr1 : s.reads = 1 := h3.mpr (by omega)
      unfold http_inv
      cases rest with
      | nil => simp [hw1, hr1]; omega
      | cons f r =>
        simp [hw1, hr1, http_session.invoke]
        simp at hlen; omega

/-- Every reachable state of the HTTP pipeline satisfies the invariant. -/
theorem http_inv_of_reachable (limit : Nat) (hl : 0 < limit) (s : http_session)
    (h : http_reachable limit s) : http_inv limit s := by
  induction h with
  | run socket now => exact http_inv_run limit hl socket now
  | step e s s' _ hd ih =>
    cases e with
    | read_done req resp now =>
      unfold http_session.deliver at hd
      simp only at hd
      split_ifs at hd with hc
      injection hd with hd
      subst hd
      have hc' : s.reads ≠ 0 ∧ req.is_upgrade = false := by
        simpa [not_or] using hc
      exact http_inv_read limit s req resp now hc'.1 hc'.2 ih
    | write_done now =>
      unfold http_session.deliver at hd
      simp only at hd
      split_ifs at hd with hc
      exact http_inv_write limit s s' now hc ih hd

/-- C2: in every state an HTTP session reaches from `run()` by successful
request-read completions (each enqueuing one send operation) and successful
non-closing write completions, the response queue holds at most `limit`
entries, a read is outstanding only while the queue is below `limit`, and at
most one read is outstanding. -/
theorem http_queue_bounded (limit : Nat) (hl : 0 < limit) (s : http_session)
    (h : http_reachable limit s) :
    s.items.length ≤ limit
      ∧ (0 < s.reads → s.items.length < limit)
      ∧ s.reads ≤ 1 := by
  obtain ⟨h1, h2, h3, _⟩ := http_inv_of_reachable limit hl s h
  exact ⟨h2, fun hr => h3.mp (by omega), h1⟩

/-- The concrete session with two queued responses is reachable. -/
theorem http_two_queued_reachable : http_reachable 2 http_two_queued :=
  http_reachable.step (http_event.read_done ⟨false, []⟩ 2 (seconds 2))
    http_one_queued http_two_queued
    (http_reachable.step (http_event.read_done ⟨false, []⟩ 1 (seconds 1))
      http_started http_one_queued (http_reachable.run (some 5) 0) rfl) rfl

/-- Witness of the queue bound: limit 2, after `run()` and two reads the
queue is full and no read is outstanding. -/
theorem http_queue_bounded_witness :
    http_two_queued.items.length ≤ 2
      ∧ (0 < http_two_queued.reads → http_two_queued.items.length < 2)
      ∧ http_two_queued.reads ≤ 1 :=
  http_queue_bounded 2 (by decide) http_two_queued http_two_queued_reachable

/-- In a reachable state every outstanding write can complete: the assertion
of `queue::on_write` holds. -/
theorem http_write_completes (limit : Nat) (hl : 0 < limit) (s : http_session)
    (h : http_reachable limit s) (hw : s.writes ≠ 0) (now : time_point) :
    ∃ s', http_session.deliver limit (http_event.write_done now) s = some s' := by
  obtain ⟨_, _, _, h4⟩ := http_inv_of_reachable limit hl s h
  cases hit : s.items with
  | nil => simp [hit] at h4; exact absurd h4 hw
  | cons w rest =>
    unfold http_session.deliver
    simp only [hw, if_false]
    rw [http_on_write_ok limit now { s with writes := s.writes - 1 } w rest hit]
    exact ⟨_, rfl⟩

/-! ## Deadline of the HTTP session -/

/-- C8, as stated, fails: with limit 2, the second read completion (at 2 s)
fills the queue and leaves the deadline at 16 s, and the write completion at
4 s, on a queue that was not full, leaves the deadline at 18 s. -/
theorem http_deadline_counterexample :
    (http_session.deliver 2 (http_event.read_done ⟨false, []⟩ 2 (seconds 2))
        http_one_queued).map (fun s => s.expiry) = some (seconds 16)
      ∧ seconds 16 ≠ seconds 2 + seconds 15
      ∧ ((http_session.deliver 2 (http_event.write_done (seconds 3))
            http_two_queued).bind
          (http_session.deliver 2 (http_event.write_done (seconds 4)))).map
          (fun s => s.expiry) = some (seconds 18)
      ∧ seconds 18 ≠ seconds 4 + seconds 15 := by
  refine ⟨by decide, by decide, by decide, by decide⟩

/-- C8, amended: a successful read completion of an ordinary request resets
the deadline to `now + 15 s` when the queue is below `limit` after the
dispatch and leaves it unchanged otherwise; a successful non-closing write
completion resets it when the queue was at `limit` before the pop and leaves
it unchanged otherwise. -/
theorem http_deadline_reset_iff_read (limit : Nat) (now : time_point)
    (resps : List work) (s : http_session) :
    (s.req.is_upgrade = false →
        (http_session.on_read limit error_code.success now resps s).1.expiry
          = if http_session.queue.is_full limit (handle_request resps s) = true
            then s.expiry else now + seconds 15)
    ∧ (s.items ≠ [] →
        ∃ s', http_session.on_write limit error_code.success false now s = some s'
          ∧ s'.expiry = if http_session.queue.is_full limit s = true
              then now + seconds 15 else s.expiry) := by
  refine ⟨?_, ?_⟩
  · intro hu
    rw [http_on_read_ok limit now resps s hu]
    split_ifs
    · exact handle_request_expiry resps s
    · exact (http_do_read_fields now _).2.2.2
  · intro hne
    cases hit : s.items with
    | nil => exact absurd hit hne
    | cons w rest =>
      rw [http_on_write_ok limit now s w rest hit]
      refine ⟨_, rfl, ?_⟩
      split_ifs
      · exact (http_do_read_fields now _).2.2.2
      · cases rest <;> rfl

/-- Witness of the amended deadline rule: with limit 2 and one response
queued, the write completion at 4 s leaves the deadline where it was. -/
theorem http_deadline_reset_iff_read_witness :
    ∃ s', http_session.on_write 2 error_code.success false (seconds 4)
        http_one_queued = some s'
      ∧ s'.expiry = http_one_queued.expiry :=
  (http_deadline_reset_iff_read 2 (seconds 4) [] http_one_queued).2 (by decide)

/-! ## Upgrade hand-off -/

/-- C6, as stated, fails: the HTTP session holds the two bytes 129, 0 after
the upgrade request, and the WebSocket session built by the upgrade branch has
an empty read buffer. -/
theorem upgrade_buffer_counterexample :
    http_upgrade_pending.req.is_upgrade = true
      ∧ http_upgrade_pending.buffer = [129, 0]
      ∧ (http_session.on_read 2 error_code.success (seconds 1) []
          http_upgrade_pending).2.map (fun u => u.session.buffer) = some []
      ∧ http_upgrade_pending.buffer ≠ [] := by
  refine ⟨by decide, by decide, by decide, by decide⟩

/-- C6, amended: on an upgrade request `on_read` detaches the deadline, moves
the socket into a WebSocket session constructed from the socket alone and
hands it the request; the new session's read buffer is empty and the bytes
buffered by the HTTP session stay in the HTTP session. -/
theorem upgrade_moves_socket_only (limit : Nat) (now : time_point)
    (resps : List work) (s : http_session) (hu : s.req.is_upgrade = true) :
    http_session.on_read limit error_code.success now resps s
        = ({ s with expiry := time_point_min, socket := none,
                    req := ⟨false, []⟩ },
           some ⟨websocket_session.new s.socket, s.req⟩)
      ∧ (websocket_session.new s.socket).buffer = []
      ∧ (http_session.on_read limit error_code.success now resps s).1.buffer
          = s.buffer := by
  refine ⟨?_, rfl, ?_⟩ <;>
    simp [http_session.on_read, error_code.failed, hu]

/-- Witness of the amended hand-off: the pending upgrade with two
buffered bytes. -/
theorem upgrade_moves_socket_only_witness :
    (websocket_session.new http_upgrade_pending.socket).buffer = []
      ∧ (http_session.on_read 2 error_code.success (seconds 1) []
          http_upgrade_pending).1.buffer = http_upgrade_pending.buffer :=
  (upgrade_moves_socket_only 2 (seconds 1) [] http_upgrade_pending
    (by decide)).2

/-! ## Read and echo loop of the WebSocket session -/

theorem ws_writes_append (l₁ l₂ : List Effect) :
    ws_writes (l₁ ++ l₂) = ws_writes l₁ ++ ws_writes l₂ := by
  induction l₁ with
  | nil => rfl
  | cons e l ih => cases e <;> simp [ws_writes, ih]

/-- The state after `on_read` handled a completion that is neither aborted nor
closed: the probe state and deadline are reset and the buffer is written. -/
theorem ws_on_read_continues {Person : Type} (c : codec Person)
    (ec : error_code) (k : Nat) (now : time_point) (s : websocket_session)
    (h1 : ec ≠ error_code.operation_aborted) (h2 : ec ≠ error_code.closed) :
    (websocket_session.on_read c ec k now s).ping_state = 0
      ∧ (websocket_session.on_read c ec k now s).expiry = now + seconds 15
      ∧ (websocket_session.on_read c ec k now s).writes = s.writes + 1
      ∧ (websocket_session.on_read c ec k now s).buffer = s.buffer
      ∧ (websocket_session.on_read c ec k now s).is_open = s.is_open
      ∧ (websocket_session.on_read c ec k now s).socket = s.socket
      ∧ ws_writes (websocket_session.on_read c ec k now s).trace
          = ws_writes s.trace ++ [(s.buffer, s.got_text)] := by
  unfold websocket_session.on_read
  simp only [h1, h2, if_false]
  cases hg : s.got_text <;> cases hf : ec.failed <;>
    simp [websocket_session.activity, websocket_session.expires_after,
      websocket_session.emit, websocket_session.fail, hg, ws_writes_append,
      ws_writes]

/-- C7, evaluated on the code: a read completion with an error other than
aborted and closed is logged, and then handled like a success: the probe state
and deadline are reset and the echo write is started. -/
theorem ws_on_read_error_falls_through {Person : Type} (c : codec Person)
    (n k : Nat) (now : time_point) (s : websocket_session) :
    (websocket_session.on_read c (error_code.other n) k now s).ping_state = 0
      ∧ (websocket_session.on_read c (error_code.other n) k now s).expiry
          = now + seconds 15
      ∧ (websocket_session.on_read c (error_code.other n) k now s).writes
          = s.writes + 1
      ∧ ws_writes (websocket_session.on_read c (error_code.other n) k now s).trace
          = ws_writes s.trace ++ [(s.buffer, s.got_text)]
      ∧ Effect.fail (error_code.other n) "read"
          ∈ (websocket_session.on_read c (error_code.other n) k now s).trace := by
  obtain ⟨a1, a2, a3, _, _, _, a7⟩ := ws_on_read_continues c (error_code.other n)
    k now s (by simp) (by simp)
  refine ⟨a1, a2, a3, a7, ?_⟩
  unfold websocket_session.on_read
  cases hg : s.got_text <;>
    simp [websocket_session.activity, websocket_session.expires_after,
      websocket_session.emit, websocket_session.fail, hg, error_code.failed]

/-- C9: for a successfully received frame `on_read` starts exactly one write,
of exactly the bytes of the buffer and with the text flag of the received
frame, whatever the message-content codec returns. -/
theorem ws_echo_fidelity {Person : Type} (c : codec Person) (k : Nat)
    (now : time_point) (s : websocket_session) :
    ws_writes (websocket_session.on_read c error_code.success k now s).trace
        = ws_writes s.trace ++ [(s.buffer, s.got_text)]
      ∧ (websocket_session.on_read c error_code.success k now s).writes
          = s.writes + 1
      ∧ (websocket_session.on_read c error_code.success k now s).buffer
          = s.buffer
      ∧ ∀ {Person' : Type} (c' : codec Person'),
          ws_writes (websocket_session.on_read c' error_code.success k now s).trace
            = ws_writes (websocket_session.on_read c error_code.success k now s).trace := by
  obtain ⟨_, _, a3, a4, _, _, a7⟩ := ws_on_read_continues c error_code.success
    k now s (by simp) (by simp)
  refine ⟨a7, a3, a4, ?_⟩
  intro Person' c'
  rw [a7]
  exact (ws_on_read_continues c' error_code.success k now s (by simp)
    (by simp)).2.2.2.2.2.2

/-! ## Keepalive probe -/

/-- A timer firing on an open session in probe state 0 never closes the
connection. -/
theorem ws_timer_keeps_open (ec : error_code) (now : time_point)
    (a : websocket_session)
    (hec : ec = error_code.success ∨ ec = error_code.operation_aborted)
    (hopen : a.is_open = true) (hidle : a.ping_state = 0) :
    ws_kept_open a (websocket_session.on_timer ec now a) := by
  have hguard : ¬ (ec.failed = true ∧ ec ≠ error_code.operation_aborted) := by
    rcases hec with h | h <;> subst h <;> simp [error_code.failed]
  unfold ws_kept_open websocket_session.on_timer
  by_cases hx : a.expiry ≤ now
  · simp [hguard, hx, hopen, hidle, websocket_session.async_wait,
      websocket_session.expires_after]
  · simp [hguard, hx, websocket_session.async_wait]

/-- A probe completion handled in probe state 0 changes nothing and passes
the assertion. -/
theorem ws_ping_done_when_idle (a : websocket_session) (hidle : a.ping_state = 0) :
    websocket_session.on_ping error_code.success a = some a := by
  simp [websocket_session.on_ping, error_code.failed, hidle]

/-- The handlers toward a silent peer when no earlier probe is outstanding,
so that at most one probe completion is delivered: an open session in probe
state 0 with deadline `t0 + 15 s` sends one probe at the timer firing at
`t0 + 15 s` and is force-closed at the timer firing at `t0 + 30 s`, whether
that completion was delivered in between or not.  Activity before the second
firing (a control frame or a successful read, at any time `ta`) puts the probe
state back to 0 and the deadline to `ta + 15 s`; a probe completion delivered
after it changes nothing, and the next timer firing, at whatever time, does
not close the connection. -/
theorem ws_silent_peer_probe_then_close (t0 : time_point)
    (s : websocket_session) (delivered : Bool)
    (hopen : s.is_open = true) (hidle : s.ping_state = 0)
    (hexp : s.expiry = t0 + seconds 15) :
    ∃ s1 s2 s3 : websocket_session,
      websocket_session.on_timer error_code.success (t0 + seconds 15) s = s1
      ∧ s1.trace = s.trace ++ [Effect.ws_ping, Effect.timer_wait (t0 + seconds 30)]
      ∧ s1.socket = s.socket
      ∧ (if delivered = true then websocket_session.on_ping error_code.success s1
          else some s1) = some s2
      ∧ s2.trace = s1.trace
      ∧ websocket_session.on_timer error_code.success (t0 + seconds 30) s2 = s3
      ∧ s3.trace = s.trace ++ [Effect.ws_ping,
          Effect.timer_wait (t0 + seconds 30), Effect.shutdown_both, Effect.close]
      ∧ s3.socket = none
      ∧ ∀ (ta t2 : time_point) (ec2 : error_code),
          (ec2 = error_code.success ∨ ec2 = error_code.operation_aborted) →
          (∀ (kind : Nat) (payload : List byte),
            (websocket_session.on_control_callback kind payload ta s2).ping_state = 0
            ∧ (websocket_session.on_control_callback kind payload ta s2).expiry
                = ta + seconds 15
            ∧ websocket_session.on_ping error_code.success
                (websocket_session.on_control_callback kind payload ta s2)
                = some (websocket_session.on_control_callback kind payload ta s2)
            ∧ ws_kept_open (websocket_session.on_control_callback kind payload ta s2)
                (websocket_session.on_timer ec2 t2
                  (websocket_session.on_control_callback kind payload ta s2)))
          ∧ (∀ (Person : Type) (c : codec Person) (k : Nat),
            (websocket_session.on_read c error_code.success k ta s2).ping_state = 0
            ∧ (websocket_session.on_read c error_code.success k ta s2).expiry
                = ta + seconds 15
            ∧ websocket_session.on_ping error_code.success
                (websocket_session.on_read c error_code.success k ta s2)
                = some (websocket_session.on_read c error_code.success k ta s2)
            ∧ ws_kept_open (websocket_session.on_read c error_code.success k ta s2)
                (websocket_session.on_timer ec2 t2
                  (websocket_session.on_read c error_code.success k ta s2))) := by
  have h30 : t0 + seconds 15 + seconds 15 = t0 + seconds 30 := by
    unfold seconds; ring
  have hs1 : websocket_session.on_timer error_code.success (t0 + seconds 15) s
      = { s with ping_state := 1, expiry := t0 + seconds 30,
                 pings := s.pings + 1, waits := s.waits + 1,
                 trace := s.trace ++ [Effect.ws_ping,
                   Effect.timer_wait (t0 + seconds 30)] } := by
    simp [websocket_session.on_timer, error_code.failed, hexp, hopen, hidle,
      websocket_session.async_wait, websocket_session.expires_after, h30]
  have hclose : ∀ x : websocket_session, x.expiry = t0 + seconds 30 →
      x.ping_state ≠ 0 →
      websocket_session.on_timer error_code.success (t0 + seconds 30) x
        = { x with socket := none,
                   trace := x.trace ++ [Effect.shutdown_both, Effect.close] } := by
    intro x hx hp
    simp [websocket_session.on_timer, error_code.failed, hx, hp,
      websocket_session.emit]
  have hact : ∀ x : websocket_session, x.is_open = true →
      ∀ (ta t2 : time_point) (ec2 : error_code),
      (ec2 = error_code.success ∨ ec2 = error_code.operation_aborted) →
      (∀ (kind : Nat) (payload : List byte),
        (websocket_session.on_control_callback kind payload ta x).ping_state = 0
        ∧ (websocket_session.on_control_callback kind payload ta x).expiry
            = ta + seconds 15
        ∧ websocket_session.on_ping error_code.success
            (websocket_session.on_control_callback kind payload ta x)
            = some (websocket_session.on_control_callback kind payload ta x)
        ∧ ws_kept_open (websocket_session.on_control_callback kind payload ta x)
            (websocket_session.on_timer ec2 t2
              (websocket_session.on_control_callback kind payload ta x)))
      ∧ (∀ (Person : Type) (c : codec Person) (k : Nat),
        (websocket_session.on_read c error_code.success k ta x).ping_state = 0
        ∧ (websocket_session.on_read c error_code.success k ta x).expiry
            = ta + seconds 15
        ∧ websocket_session.on_ping error_code.success
            (websocket_session.on_read c error_code.success k ta x)
            = some (websocket_session.on_read c error_code.success k ta x)
        ∧ ws_kept_open (websocket_session.on_read c error_code.success k ta x)
            (websocket_session.on_timer ec2 t2
              (websocket_session.on_read c error_code.success k ta x))) := by
    intro x hx ta t2 ec2 hec
    refine ⟨fun kind payload => ⟨rfl, rfl, ?_, ?_⟩, fun Person c k => ?_⟩
    · exact ws_ping_done_when_idle _ rfl
    · exact ws_timer_keeps_open ec2 t2 _ hec hx rfl
    · obtain ⟨a1, a2, _, _, a5, _, _⟩ := ws_on_read_continues c
        error_code.success k ta x (by simp) (by simp)
      exact ⟨a1, a2, ws_ping_done_when_idle _ a1,
        ws_timer_keeps_open ec2 t2 _ hec (a5.trans hx) a1⟩
  cases delivered with
  | false =>
    refine ⟨_, _, _, hs1, rfl, rfl, rfl, rfl, rfl, ?_, ?_, ?_⟩
    · rw [hclose _ rfl (by simp)]; simp
    · rw [hclose _ rfl (by simp)]
    · exact hact _ hopen
  | true =>
    have hs2 : websocket_session.on_ping error_code.success
        { s with ping_state := 1, expiry := t0 + seconds 30,
                 pings := s.pings + 1, waits := s.waits + 1,
                 trace := s.trace ++ [Effect.ws_ping,
                   Effect.timer_wait (t0 + seconds 30)] }
        = some
        { s with ping_state := 2, expiry := t0 + seconds 30,
                 pings := s.pings + 1, waits := s.waits + 1,
                 trace := s.trace ++ [Effect.ws_ping,
                   Effect.timer_wait (t0 + seconds 30)] } := by
      simp [websocket_session.on_ping, error_code.failed]
    refine ⟨_, _, _, hs1, rfl, rfl, (if_pos rfl).trans hs2, rfl, rfl, ?_, ?_, ?_⟩
    · rw [hclose _ rfl (by simp)]; simp
    · rw [hclose _ rfl (by simp)]
    · exact hact _ hopen

/-- The silent-peer handlers at the session established at time 0, with the
completion of the probe delivered: probe at 15 s, close at 30 s. -/
theorem ws_silent_peer_probe_then_close_witness :
    ∃ s1 s2 s3 : websocket_session,
      websocket_session.on_timer error_code.success (0 + seconds 15) ws_idle = s1
      ∧ websocket_session.on_ping error_code.success s1 = some s2
      ∧ websocket_session.on_timer error_code.success (0 + seconds 30) s2 = s3
      ∧ s3.trace = ws_idle.trace ++ [Effect.ws_ping,
          Effect.timer_wait (0 + seconds 30), Effect.shutdown_both, Effect.close]
      ∧ s3.socket = none := by
  obtain ⟨s1, s2, s3, h1, _, _, h4, _, h6, h7, h8, _⟩ :=
    ws_silent_peer_probe_then_close 0 ws_idle true (by decide) (by decide)
      (by decide)
  exact ⟨s1, s2, s3, h1, by simpa using h4, h6, h7, h8⟩

/-- C4, evaluated on the code: after `ws_probe_pending_events` the session is
open, in probe state 0, with deadline `t0 + 15 s` for `t0 = 20 s`, and one
earlier probe is outstanding.  In the run `ws_silent_events`, which has no
inbound activity, the firing at `t0 + 15 s` sends one probe, the first
completion moves the probe state to 2 with the connection still open, and the
second completion fails the assertion of `on_ping`, so the run never reaches
the force-close at `t0 + 30 s`; without the second completion the firing at
`t0 + 30 s` does close the socket. -/
theorem ws_silent_run_assertion_fails :
    (websocket_session.run_events codec.failing ws_probe_pending_events
        ws_idle).map (fun s => (s.is_open, s.ping_state, s.expiry, s.pings))
        = some (true, 0, seconds 20 + seconds 15, 1)
      ∧ ws_silent_events.all (fun e => !e.inbound) = true
      ∧ ((websocket_session.run_events codec.failing ws_probe_pending_events
          ws_idle).bind
          (websocket_session.run_events codec.failing
            (ws_silent_events.take 1))).map
          (fun s => (s.ping_state, s.expiry, s.pings, s.socket))
          = some (1, seconds 20 + seconds 30, 2, some 5)
      ∧ ((websocket_session.run_events codec.failing ws_probe_pending_events
          ws_idle).bind
          (websocket_session.run_events codec.failing
            (ws_silent_events.take 2))).map
          (fun s => (s.ping_state, s.pings, s.socket)) = some (2, 1, some 5)
      ∧ ((websocket_session.run_events codec.failing ws_probe_pending_events
          ws_idle).bind
          (websocket_session.run_events codec.failing
            (ws_silent_events.take 2))).bind
          (websocket_session.on_ping error_code.success) = none
      ∧ (websocket_session.run_events codec.failing ws_probe_pending_events
          ws_idle).bind
          (websocket_session.run_events codec.failing ws_silent_events) = none
      ∧ ((websocket_session.run_events codec.failing ws_probe_pending_events
          ws_idle).bind
          (websocket_session.run_events codec.failing
            (ws_silent_events.take 2 ++ ws_silent_events.drop 3))).map
          (fun s => s.socket) = some none := by
  refine ⟨by decide, by decide, by decide, by decide, by decide, by decide,
    by decide⟩

/-- C10, evaluated on the code: after the run `ws_two_probe_events` the probe
state is 2 and one probe is still outstanding; the handling of its successful
completion by `on_ping` fails the assertion `ping_state_ == 0`. -/
theorem ws_ping_assertion_fails :
    (websocket_session.run_events codec.failing ws_two_probe_events ws_idle).map
        (fun s => (s.ping_state, s.pings, s.socket)) = some (2, 1, some 5)
      ∧ (websocket_session.run_events codec.failing ws_two_probe_events
          ws_idle).bind (websocket_session.on_ping error_code.success) = none
      ∧ websocket_session.run_events codec.failing
          (ws_two_probe_events ++ [ws_event.ping_done error_code.success])
          ws_idle = none := by
  refine ⟨by decide, by decide, by decide⟩

end BeastExample
